import Mathlib

/-!
Verification of the `BuildByStrategy` admission plugin
(`pkg/build/admission/strategyrestrictions/admission.go`).

The Go source is shallowly embedded: the strategy union, the request
attributes, and the decision functions are translated directly; the
injected collaborators (the SubjectAccessReview client, the build lookup
client, the wire-to-internal scheme conversion, and the upstream
`IsOnlyMutatingGCFields` helper) are modelled as function-valued
parameters, since their implementations live outside this package.
Every collaborator call is recorded as an event, so that "the reviewer
is never invoked" is a statement about the recorded event list.
-/

namespace StrategyRestrictions

/-- `ImageOptimizationPolicy` is a string-valued enum in the build API. -/
def ImageOptimizationPolicy := String
deriving DecidableEq, Repr

/-- Modelled from the spec: the distinguished "no optimization" policy value
(`buildapi.ImageOptimizationNone`); the constant is declared in the build
API package, which is outside `src/`. Only its identity matters here. -/
def ImageOptimizationNone : ImageOptimizationPolicy := "None"

/-- `buildapi.DockerBuildStrategy`, restricted to the one field the
admission plugin reads (`ImageOptimizationPolicy *ImageOptimizationPolicy`). -/
structure DockerBuildStrategy where
  imageOptimizationPolicy : Option ImageOptimizationPolicy := none
deriving DecidableEq, Repr

/-- `buildapi.CustomBuildStrategy`; the plugin only tests it against nil. -/
structure CustomBuildStrategy where
deriving DecidableEq, Repr

/-- `buildapi.SourceBuildStrategy`; the plugin only tests it against nil. -/
structure SourceBuildStrategy where
deriving DecidableEq, Repr

/-- `buildapi.JenkinsPipelineBuildStrategy`; only tested against nil. -/
structure JenkinsPipelineBuildStrategy where
deriving DecidableEq, Repr

/-- `buildapi.BuildStrategy`: a tagged union encoded, as in Go, by four
optional pointers. -/
structure BuildStrategy where
  dockerStrategy : Option DockerBuildStrategy := none
  customStrategy : Option CustomBuildStrategy := none
  sourceStrategy : Option SourceBuildStrategy := none
  jenkinsPipelineStrategy : Option JenkinsPipelineBuildStrategy := none
deriving DecidableEq, Repr

/-- `schema.GroupResource`. -/
structure GroupResource where
  group : String
  resource : String
deriving DecidableEq, Repr

/-- Modelled from the spec: `buildapi.Resource` qualifies a resource name
with the build API group; declared in the build API package outside
`src/`. -/
def buildapiResource (resource : String) : GroupResource :=
  { group := "build.openshift.io", resource := resource }

/-- Modelled from the spec: `buildapi.LegacyResource` qualifies a resource
name with the legacy (empty) API group; declared outside `src/`. -/
def legacyResource (resource : String) : GroupResource :=
  { group := "", resource := resource }

/-- Modelled from the spec: `bootstrappolicy.DockerBuildResource`, the base
Docker build subresource string; declared outside `src/`. The spec notes the
resource string encodes a sub-resource with a single `/` separator. -/
def DockerBuildResource : String := "builds/docker"

/-- Modelled from the spec: `bootstrappolicy.OptimizedDockerBuildResource`,
the optimized Docker build subresource string; declared outside `src/`. -/
def OptimizedDockerBuildResource : String := "builds/optimizeddocker"

/-- Modelled from the spec: `bootstrappolicy.CustomBuildResource`; declared
outside `src/`. -/
def CustomBuildResource : String := "builds/custom"

/-- Modelled from the spec: `bootstrappolicy.SourceBuildResource`; declared
outside `src/`. -/
def SourceBuildResource : String := "builds/source"

/-- Modelled from the spec: `bootstrappolicy.JenkinsPipelineBuildResource`;
declared outside `src/`. -/
def JenkinsPipelineBuildResource : String := "builds/jenkinspipeline"

/-- Go errors reaching or produced by the plugin. Opaque errors returned by
injected collaborators are carried as `collaborator` with their message;
each `fmt.Errorf` site in the plugin has its own constructor;
`admission.NewForbidden` wraps a cause. -/
inductive GoError where
  | collaborator (msg : String)
  | unrecognizedStrategy (strategy : BuildStrategy)
  | notAllowedMsg (msg : String)
  | unknownResourceTypeForBuildRequest (gr : GroupResource)
  | unrecognizedRequestObject
  | needsBuildClient
  | needsSARClient
  | forbidden (cause : GoError)
deriving DecidableEq, Repr

/-- `resourceForStrategyType`: ordered first-match over the strategy union
(admission.go lines 103-118). -/
def resourceForStrategyType (strategy : BuildStrategy) :
    Except GoError GroupResource :=
  if (match strategy.dockerStrategy with
      | some ds =>
        match ds.imageOptimizationPolicy with
        | some p => decide (p ≠ ImageOptimizationNone)
        | none => false
      | none => false) then
    Except.ok (buildapiResource OptimizedDockerBuildResource)
  else if strategy.dockerStrategy.isSome then
    Except.ok (buildapiResource DockerBuildResource)
  else if strategy.customStrategy.isSome then
    Except.ok (buildapiResource CustomBuildResource)
  else if strategy.sourceStrategy.isSome then
    Except.ok (buildapiResource SourceBuildResource)
  else if strategy.jenkinsPipelineStrategy.isSome then
    Except.ok (buildapiResource JenkinsPipelineBuildResource)
  else
    Except.error (GoError.unrecognizedStrategy strategy)

/-- `strategyTypeString` (admission.go lines 229-241). -/
def strategyTypeString (strategy : BuildStrategy) : String :=
  if strategy.dockerStrategy.isSome then "Docker"
  else if strategy.customStrategy.isSome then "Custom"
  else if strategy.sourceStrategy.isSome then "Source"
  else if strategy.jenkinsPipelineStrategy.isSome then "JenkinsPipeline"
  else ""

/-- `metav1.ObjectMeta`, restricted to the fields the plugin reads. -/
structure ObjectMeta where
  name : String := ""
  generateName : String := ""
deriving DecidableEq, Repr

/-- `buildapi.BuildSpec`, restricted to the strategy field. -/
structure BuildSpec where
  strategy : BuildStrategy := {}
deriving DecidableEq, Repr

/-- `buildapi.Build` (an Instance), restricted to the fields the plugin
reads. -/
structure Build where
  objectMeta : ObjectMeta := {}
  spec : BuildSpec := {}
deriving DecidableEq, Repr

/-- `buildapi.BuildConfigSpec`, restricted to the strategy field. -/
structure BuildConfigSpec where
  strategy : BuildStrategy := {}
deriving DecidableEq, Repr

/-- `buildapi.BuildConfig` (a Definition), restricted to the fields the
plugin reads. -/
structure BuildConfig where
  objectMeta : ObjectMeta := {}
  spec : BuildConfigSpec := {}
deriving DecidableEq, Repr

/-- `buildapi.BuildRequest` (an Indirect Request): the plugin reads only its
name. -/
structure BuildRequest where
  objectMeta : ObjectMeta := {}
deriving DecidableEq, Repr

/-- The `runtime.Object` carried by request attributes, as the type switch
in `Admit` distinguishes it: the three recognized shapes plus everything
else (including nil). -/
inductive RuntimeObject where
  | build (b : Build)
  | buildConfig (bc : BuildConfig)
  | buildRequest (req : BuildRequest)
  | other
deriving DecidableEq, Repr

/-- The admission operation (the handler registers for create and update). -/
inductive Operation where
  | create
  | update
deriving DecidableEq, Repr

/-- `admission.Attributes`, restricted to the accessors the plugin calls:
`GetResource().GroupResource()`, `GetSubresource()`, `GetNamespace()`,
`GetUserInfo()`, `GetObject()`, `GetOldObject()`, and the operation. -/
structure Attributes where
  operation : Operation := Operation.create
  resource : GroupResource
  subresource : String := ""
  nspace : String := ""
  userInfo : String := ""
  object : RuntimeObject := RuntimeObject.other
  oldObject : Option RuntimeObject := none
deriving DecidableEq, Repr

/-- `admission.NewForbidden attr err`: a forbidden admission error wrapping
the underlying cause. -/
def newForbidden (_attr : Attributes) (err : GoError) : GoError :=
  GoError.forbidden err

/-- `authorization.ResourceAttributes`, restricted to the fields the plugin
sets. -/
structure ResourceAttributes where
  nspace : String := ""
  verb : String := ""
  group : String := ""
  resource : String := ""
  subresource : String := ""
  name : String := ""
deriving DecidableEq, Repr

/-- `authorization.SubjectAccessReviewSpec`: the resource attributes plus
the requesting identity filled in by `util.AddUserToSAR`. -/
structure SubjectAccessReviewSpec where
  resourceAttributes : Option ResourceAttributes := none
  user : String := ""
deriving DecidableEq, Repr

/-- `authorization.SubjectAccessReview`. -/
structure SubjectAccessReview where
  spec : SubjectAccessReviewSpec := {}
deriving DecidableEq, Repr

/-- `authorization.SubjectAccessReviewStatus`, restricted to `Allowed`. -/
structure SubjectAccessReviewStatus where
  allowed : Bool := false
deriving DecidableEq, Repr

/-- The reviewer's response object, restricted to its status. -/
structure SubjectAccessReviewResponse where
  status : SubjectAccessReviewStatus := {}
deriving DecidableEq, Repr

/-- Modelled from the spec: `util.AddUserToSAR` (outside `src/`) copies the
requesting identity into the review spec. -/
def addUserToSAR (user : String) (sar : SubjectAccessReview) :
    SubjectAccessReview :=
  { sar with spec := { sar.spec with user := user } }

/-- Opaque wire (external v1) representation of a Build; its schema lives
outside this package. -/
structure BuildV1 where
  raw : Nat := 0
deriving DecidableEq, Repr

/-- Opaque wire (external v1) representation of a BuildConfig. -/
structure BuildConfigV1 where
  raw : Nat := 0
deriving DecidableEq, Repr

/-- One call to an injected collaborator, recorded so that theorems can
state which collaborators an execution invoked. -/
inductive CallEvent where
  | sarCall (sar : SubjectAccessReview)
  | buildGet (nspace name : String)
  | buildConfigGet (nspace name : String)
deriving DecidableEq, Repr

/-- The injected collaborators of the plugin: the SubjectAccessReview
client (`sarClient.Create`), the build lookup client
(`buildClient.BuildV1().Builds/BuildConfigs(...).Get`), the
wire-to-internal scheme conversion (`buildscheme.InternalExternalScheme`),
and the upstream `rbacregistry.IsOnlyMutatingGCFields` helper. Opaque
collaborator failures are surfaced as their error message. -/
structure Env where
  sarCreate : SubjectAccessReview → Except String SubjectAccessReviewResponse
  getBuild : String → String → Except String BuildV1
  getBuildConfig : String → String → Except String BuildConfigV1
  convertBuild : BuildV1 → Except String Build
  convertBuildConfig : BuildConfigV1 → Except String BuildConfig
  isOnlyMutatingGCFields : RuntimeObject → RuntimeObject → Bool

/-- `resourceName` (admission.go lines 120-125). -/
def resourceName (objectMeta : ObjectMeta) : String :=
  if objectMeta.generateName.length > 0 then objectMeta.generateName
  else objectMeta.name

/-- The `/` separator character used in the plugin's resource strings. -/
def slash : Char := Char.ofNat 47

/-- Split a character list at the first occurrence of the separator
character, if any. -/
def splitFirst (sep : Char) : List Char → Option (List Char × List Char)
  | [] => none
  | c :: cs =>
    if c = sep then some ([], cs)
    else
      match splitFirst sep cs with
      | none => none
      | some (pre, post) => some (c :: pre, post)

/-- Go `strings.SplitN s sep 2` for the single-character separator the
plugin uses: split at the first occurrence of the separator only. -/
def goSplitN2 (s : String) (sep : Char) : List String :=
  match splitFirst sep s.data with
  | none => [s]
  | some (pre, post) => [String.mk pre, String.mk post]

/-- `checkAccess` (admission.go lines 214-223), with the reviewer call
recorded. -/
def checkAccess (env : Env) (strategy : BuildStrategy)
    (subjectAccessReview : SubjectAccessReview) (attr : Attributes) :
    Option GoError × List CallEvent :=
  match env.sarCreate subjectAccessReview with
  | Except.error err =>
    (some (newForbidden attr (GoError.collaborator err)),
      [CallEvent.sarCall subjectAccessReview])
  | Except.ok resp =>
    if !resp.status.allowed then
      (some (newForbidden attr (GoError.notAllowedMsg
        ("build strategy " ++ strategyTypeString strategy ++
          " is not allowed"))),
        [CallEvent.sarCall subjectAccessReview])
    else
      (none, [CallEvent.sarCall subjectAccessReview])

/-- `checkBuildAuthorization` (admission.go lines 127-153). -/
def checkBuildAuthorization (env : Env) (build : Build)
    (attr : Attributes) : Option GoError × List CallEvent :=
  let strategy := build.spec.strategy
  match resourceForStrategyType strategy with
  | Except.error err => (some (newForbidden attr err), [])
  | Except.ok resource =>
    let tokens := goSplitN2 resource.resource slash
    let resourceType := tokens.headD ""
    let subresource := if tokens.length = 2 then tokens.getD 1 "" else ""
    let ra : ResourceAttributes :=
      { nspace := attr.nspace
        verb := "create"
        group := resource.group
        resource := resourceType
        subresource := subresource
        name := resourceName build.objectMeta }
    let sar := addUserToSAR attr.userInfo
      { spec := { resourceAttributes := some ra } }
    checkAccess env strategy sar attr

/-- `checkBuildConfigAuthorization` (admission.go lines 155-181). -/
def checkBuildConfigAuthorization (env : Env) (buildConfig : BuildConfig)
    (attr : Attributes) : Option GoError × List CallEvent :=
  let strategy := buildConfig.spec.strategy
  match resourceForStrategyType strategy with
  | Except.error err => (some (newForbidden attr err), [])
  | Except.ok resource =>
    let tokens := goSplitN2 resource.resource slash
    let resourceType := tokens.headD ""
    let subresource := if tokens.length = 2 then tokens.getD 1 "" else ""
    let ra : ResourceAttributes :=
      { nspace := attr.nspace
        verb := "create"
        group := resource.group
        resource := resourceType
        subresource := subresource
        name := resourceName buildConfig.objectMeta }
    let sar := addUserToSAR attr.userInfo
      { spec := { resourceAttributes := some ra } }
    checkAccess env strategy sar attr

/-- `checkBuildRequestAuthorization` (admission.go lines 183-212), with
each lookup call recorded. -/
def checkBuildRequestAuthorization (env : Env) (req : BuildRequest)
    (attr : Attributes) : Option GoError × List CallEvent :=
  let gr := attr.resource
  if gr = buildapiResource "builds" ∨ gr = legacyResource "builds" then
    match env.getBuild attr.nspace req.objectMeta.name with
    | Except.error err =>
      (some (newForbidden attr (GoError.collaborator err)),
        [CallEvent.buildGet attr.nspace req.objectMeta.name])
    | Except.ok wireBuild =>
      match env.convertBuild wireBuild with
      | Except.error err =>
        (some (newForbidden attr (GoError.collaborator err)),
          [CallEvent.buildGet attr.nspace req.objectMeta.name])
      | Except.ok internalBuild =>
        let result := checkBuildAuthorization env internalBuild attr
        (result.1,
          CallEvent.buildGet attr.nspace req.objectMeta.name :: result.2)
  else if gr = buildapiResource "buildconfigs" ∨
      gr = legacyResource "buildconfigs" then
    match env.getBuildConfig attr.nspace req.objectMeta.name with
    | Except.error err =>
      (some (newForbidden attr (GoError.collaborator err)),
        [CallEvent.buildConfigGet attr.nspace req.objectMeta.name])
    | Except.ok wireBuildConfig =>
      match env.convertBuildConfig wireBuildConfig with
      | Except.error err =>
        (some (newForbidden attr (GoError.collaborator err)),
          [CallEvent.buildConfigGet attr.nspace req.objectMeta.name])
      | Except.ok internalBuildConfig =>
        let result := checkBuildConfigAuthorization env internalBuildConfig attr
        (result.1,
          CallEvent.buildConfigGet attr.nspace req.objectMeta.name ::
            result.2)
  else
    (some (newForbidden attr
      (GoError.unknownResourceTypeForBuildRequest gr)), [])

/-- The body of `Admit` after the entry `switch gr` (admission.go lines
66-82): the garbage-collection-only bypass, then the object type switch. -/
def admitObject (env : Env) (attr : Attributes) :
    Option GoError × List CallEvent :=
  let gcOnly :=
    match attr.oldObject with
    | some old => env.isOnlyMutatingGCFields attr.object old
    | none => false
  if gcOnly then (none, [])
  else
    match attr.object with
    | RuntimeObject.build b => checkBuildAuthorization env b attr
    | RuntimeObject.buildConfig bc => checkBuildConfigAuthorization env bc attr
    | RuntimeObject.buildRequest req =>
      checkBuildRequestAuthorization env req attr
    | RuntimeObject.other =>
      (some (newForbidden attr GoError.unrecognizedRequestObject), [])

/-- `Admit` (admission.go lines 50-83): the entry resource switch with the
builds/details bypass, then `admitObject`. `none` is the allow outcome. -/
def Admit (env : Env) (attr : Attributes) :
    Option GoError × List CallEvent :=
  let gr := attr.resource
  if gr = buildapiResource "buildconfigs" ∨
      gr = legacyResource "buildconfigs" then
    admitObject env attr
  else if gr = buildapiResource "builds" ∨ gr = legacyResource "builds" then
    if attr.subresource = "details" then (none, [])
    else admitObject env attr
  else (none, [])

/-- The plugin struct `buildByStrategy` before initialization: either
injected client may still be absent. -/
structure BuildByStrategy where
  sarClient :
    Option (SubjectAccessReview → Except String SubjectAccessReviewResponse)
  buildClient : Option (String → String → Except String BuildV1)

/-- `ValidateInitialization` (admission.go lines 93-101). -/
def ValidateInitialization (a : BuildByStrategy) : Option GoError :=
  if a.buildClient.isNone then some GoError.needsBuildClient
  else if a.sarClient.isNone then some GoError.needsSARClient
  else none

/-- Whether an error is, or wraps, the structural error of the unknown
target-resource branch of `checkBuildRequestAuthorization`. -/
def mentionsUnknownResourceTypeErr : GoError → Bool
  | GoError.unknownResourceTypeForBuildRequest _ => true
  | GoError.forbidden cause => mentionsUnknownResourceTypeErr cause
  | _ => false

/-- The number of populated variants of a strategy union value. -/
def populatedCount (s : BuildStrategy) : Nat :=
  (if s.dockerStrategy.isSome then 1 else 0) +
  (if s.customStrategy.isSome then 1 else 0) +
  (if s.sourceStrategy.isSome then 1 else 0) +
  (if s.jenkinsPipelineStrategy.isSome then 1 else 0)

/-- A sample environment whose reviewer always answers allowed=false and
whose remaining collaborators always succeed. -/
def denyEnv : Env :=
  { sarCreate := fun _ => Except.ok { status := { allowed := false } }
    getBuild := fun _ _ => Except.ok {}
    getBuildConfig := fun _ _ => Except.ok {}
    convertBuild := fun _ => Except.ok {}
    convertBuildConfig := fun _ => Except.ok {}
    isOnlyMutatingGCFields := fun _ _ => false }

/-- A sample environment whose reviewer call fails with a transport error. -/
def errEnv : Env :=
  { denyEnv with sarCreate := fun _ => Except.error "transport error" }

/-- A sample environment whose reviewer always answers allowed=true. -/
def allowEnv : Env :=
  { denyEnv with sarCreate := fun _ => Except.ok { status := { allowed := true } } }

/-- A sample environment whose build lookup fails with a not-found error. -/
def notFoundEnv : Env :=
  { denyEnv with
      getBuild := fun _ _ => Except.error "builds missing not found"
      getBuildConfig := fun _ _ => Except.error "buildconfigs missing not found" }

/-- A sample environment in which every update is a garbage-collection-only
mutation and the reviewer always denies. -/
def gcEnv : Env :=
  { denyEnv with isOnlyMutatingGCFields := fun _ _ => true }

/-- A sample Instance with a SourceLike strategy and a name-generation
template. -/
def sampleBuild : Build :=
  { objectMeta := { name := "b1", generateName := "b-" }
    spec := { strategy := { sourceStrategy := some {} } } }

/-- Sample request attributes for an update of a builds resource. -/
def sampleAttr : Attributes :=
  { operation := Operation.update
    resource := buildapiResource "builds"
    nspace := "ns1"
    userInfo := "alice"
    object := RuntimeObject.build sampleBuild }

/-- C1: `resourceForStrategyType` maps a Strategy to a Resource Identifier
by ordered first-match: a DockerLike strategy with a non-null optimization
policy different from the none-policy maps to the optimized Docker
resource; any other DockerLike strategy (policy equal to the none-policy or
absent) maps to the base Docker resource; then CustomLike maps to the
Custom resource, SourceLike to the Source resource, PipelineLike to the
JenkinsPipeline resource; and with no variant populated it returns the
structural unrecognized-strategy error. -/
theorem C1_resourceForStrategyType_ordered_mapping :
    (∀ (s : BuildStrategy) (ds : DockerBuildStrategy)
        (p : ImageOptimizationPolicy),
      s.dockerStrategy = some ds →
      ds.imageOptimizationPolicy = some p → p ≠ ImageOptimizationNone →
      resourceForStrategyType s =
        Except.ok (buildapiResource OptimizedDockerBuildResource)) ∧
    (∀ (s : BuildStrategy) (ds : DockerBuildStrategy),
      s.dockerStrategy = some ds →
      (ds.imageOptimizationPolicy = none ∨
        ds.imageOptimizationPolicy = some ImageOptimizationNone) →
      resourceForStrategyType s =
        Except.ok (buildapiResource DockerBuildResource)) ∧
    (∀ s : BuildStrategy, s.dockerStrategy = none →
      s.customStrategy.isSome →
      resourceForStrategyType s =
        Except.ok (buildapiResource CustomBuildResource)) ∧
    (∀ s : BuildStrategy, s.dockerStrategy = none →
      s.customStrategy = none → s.sourceStrategy.isSome →
      resourceForStrategyType s =
        Except.ok (buildapiResource SourceBuildResource)) ∧
    (∀ s : BuildStrategy, s.dockerStrategy = none →
      s.customStrategy = none → s.sourceStrategy = none →
      s.jenkinsPipelineStrategy.isSome →
      resourceForStrategyType s =
        Except.ok (buildapiResource JenkinsPipelineBuildResource)) ∧
    (∀ s : BuildStrategy, s.dockerStrategy = none →
      s.customStrategy = none → s.sourceStrategy = none →
      s.jenkinsPipelineStrategy = none →
      resourceForStrategyType s =
        Except.error (GoError.unrecognizedStrategy s)) := by
  refine ⟨?_, ?_, ?_, ?_, ?_, ?_⟩
  · intro s ds p h1 h2 h3
    simp [resourceForStrategyType, h1, h2, h3]
  · intro s ds h1 h2
    rcases h2 with h2 | h2 <;> simp [resourceForStrategyType, h1, h2]
  · intro s h1 h2
    simp [resourceForStrategyType, h1, h2]
  · intro s h1 h2 h3
    simp [resourceForStrategyType, h1, h2, h3]
  · intro s h1 h2 h3 h4
    simp [resourceForStrategyType, h1, h2, h3, h4]
  · intro s h1 h2 h3 h4
    simp [resourceForStrategyType, h1, h2, h3, h4]

/-- Witness for C1: a DockerLike strategy with a Layered optimization
policy maps to the optimized Docker resource. -/
theorem C1_witness :
    resourceForStrategyType
      { dockerStrategy := some { imageOptimizationPolicy := some "Layered" } } =
      Except.ok (buildapiResource OptimizedDockerBuildResource) :=
  C1_resourceForStrategyType_ordered_mapping.1 _ _ "Layered" rfl rfl
    (by decide)

/-- C2: `checkAccess` is fail-closed: a reviewer transport error yields a
forbidden result carrying the underlying error, a successful review with
allowed=false yields the strategy-named denial, and the request is allowed
(no error) exactly when the review succeeds with allowed=true. -/
theorem C2_checkAccess_fail_closed :
    (∀ (env : Env) (strategy : BuildStrategy)
        (sar : SubjectAccessReview) (attr : Attributes) (err : String),
      env.sarCreate sar = Except.error err →
      (checkAccess env strategy sar attr).1 =
        some (GoError.forbidden (GoError.collaborator err))) ∧
    (∀ (env : Env) (strategy : BuildStrategy)
        (sar : SubjectAccessReview) (attr : Attributes)
        (resp : SubjectAccessReviewResponse),
      env.sarCreate sar = Except.ok resp → resp.status.allowed = false →
      (checkAccess env strategy sar attr).1 =
        some (GoError.forbidden (GoError.notAllowedMsg
          ("build strategy " ++ strategyTypeString strategy ++
            " is not allowed")))) ∧
    (∀ (env : Env) (strategy : BuildStrategy)
        (sar : SubjectAccessReview) (attr : Attributes)
        (resp : SubjectAccessReviewResponse),
      env.sarCreate sar = Except.ok resp → resp.status.allowed = true →
      (checkAccess env strategy sar attr).1 = none) := by
  refine ⟨?_, ?_, ?_⟩
  · intro env strategy sar attr err h
    simp [checkAccess, newForbidden, h]
  · intro env strategy sar attr resp h hall
    simp [checkAccess, newForbidden, h, hall]
  · intro env strategy sar attr resp h hall
    simp [checkAccess, h, hall]

/-- Witness for C2: with a reviewer that fails with a transport error, the
result is forbidden and carries that error. -/
theorem C2_witness :
    (checkAccess errEnv {} {} { resource := buildapiResource "builds" }).1 =
      some (GoError.forbidden (GoError.collaborator "transport error")) :=
  C2_checkAccess_fail_closed.1 errEnv {} {}
    { resource := buildapiResource "builds" } "transport error" rfl

/-- C3: on an update of a buildconfigs (Definition) or builds (Instance)
resource whose previous object is present and where the only change is to
owner/garbage-collection linkage fields, `Admit` allows immediately for
every environment — in particular for any reviewer answer — and invokes no
collaborator at all. -/
theorem C3_gc_only_update_allowed (env : Env) (attr : Attributes)
    (old : RuntimeObject)
    (hgr : attr.resource = buildapiResource "buildconfigs" ∨
      attr.resource = legacyResource "buildconfigs" ∨
      attr.resource = buildapiResource "builds" ∨
      attr.resource = legacyResource "builds")
    (hold : attr.oldObject = some old)
    (hgc : env.isOnlyMutatingGCFields attr.object old = true) :
    Admit env attr = (none, []) := by
  have hbody : admitObject env attr = (none, []) := by
    simp [admitObject, hold, hgc]
  rcases hgr with h | h | h | h <;>
    simp [Admit, h, buildapiResource, legacyResource, hbody]

/-- Witness for C3: an update that only mutates GC fields is allowed with
no collaborator call even though the reviewer always denies. -/
theorem C3_witness :
    Admit gcEnv
      { operation := Operation.update
        resource := buildapiResource "builds"
        object := RuntimeObject.build {}
        oldObject := some (RuntimeObject.build {}) } = (none, []) :=
  C3_gc_only_update_allowed gcEnv _ (RuntimeObject.build {})
    (Or.inr (Or.inr (Or.inl rfl))) rfl rfl

/-- C4: a request against the builds/details sub-resource is allowed with
no collaborator call; and a request whose group-resource is none of the
buildconfigs or builds resources (current or legacy group) is allowed with
no collaborator call. -/
theorem C4_details_and_foreign_resources_allowed :
    (∀ (env : Env) (attr : Attributes),
      (attr.resource = buildapiResource "builds" ∨
        attr.resource = legacyResource "builds") →
      attr.subresource = "details" →
      Admit env attr = (none, [])) ∧
    (∀ (env : Env) (attr : Attributes),
      attr.resource ≠ buildapiResource "buildconfigs" →
      attr.resource ≠ legacyResource "buildconfigs" →
      attr.resource ≠ buildapiResource "builds" →
      attr.resource ≠ legacyResource "builds" →
      Admit env attr = (none, [])) := by
  constructor
  · intro env attr hgr hsub
    rcases hgr with h | h <;>
      simp [Admit, h, hsub, buildapiResource, legacyResource]
  · intro env attr h1 h2 h3 h4
    simp [Admit, h1, h2, h3, h4]

/-- Witness for C4: a builds/details request is allowed with no
collaborator call even though the reviewer always denies. -/
theorem C4_witness :
    Admit denyEnv
      { resource := buildapiResource "builds"
        subresource := "details"
        object := RuntimeObject.buildRequest {} } = (none, []) :=
  C4_details_and_foreign_resources_allowed.1 denyEnv _ (Or.inl rfl) rfl

/-- The mapper can only return one of the five bootstrap-policy resources. -/
theorem resourceForStrategyType_ok_cases (s : BuildStrategy)
    (r : GroupResource)
    (h : resourceForStrategyType s = Except.ok r) :
    r = buildapiResource OptimizedDockerBuildResource ∨
    r = buildapiResource DockerBuildResource ∨
    r = buildapiResource CustomBuildResource ∨
    r = buildapiResource SourceBuildResource ∨
    r = buildapiResource JenkinsPipelineBuildResource := by
  unfold resourceForStrategyType at h
  repeat' split at h
  all_goals simp_all

/-- `checkAccess` always performs exactly one reviewer call, on the review
object it was handed. -/
theorem checkAccess_snd (env : Env) (strategy : BuildStrategy)
    (sar : SubjectAccessReview) (attr : Attributes) :
    (checkAccess env strategy sar attr).2 = [CallEvent.sarCall sar] := by
  unfold checkAccess
  cases h : env.sarCreate sar with
  | error e => rfl
  | ok resp => by_cases ha : resp.status.allowed <;> simp [ha]

/-- When the strategy maps to a resource, `checkBuildAuthorization` hands
`checkAccess` the review built from the split resource string and the
object's name. -/
theorem checkBuildAuthorization_eq (env : Env) (build : Build)
    (attr : Attributes) (resource : GroupResource)
    (h : resourceForStrategyType build.spec.strategy = Except.ok resource) :
    checkBuildAuthorization env build attr =
      checkAccess env build.spec.strategy
        (addUserToSAR attr.userInfo
          { spec := { resourceAttributes := some {
              nspace := attr.nspace
              verb := "create"
              group := resource.group
              resource := (goSplitN2 resource.resource slash).headD ""
              subresource :=
                if (goSplitN2 resource.resource slash).length = 2 then
                  (goSplitN2 resource.resource slash).getD 1 ""
                else ""
              name := resourceName build.objectMeta } } }) attr := by
  unfold checkBuildAuthorization
  simp only [h]

/-- A non-empty string has positive length. -/
theorem length_pos_of_ne_empty (s : String) (h : s ≠ "") :
    0 < s.length := by
  cases s with
  | mk data =>
    cases data with
    | nil => exact absurd rfl h
    | cons c cs => simp [String.length]

/-- `resourceName` prefers a non-empty name-generation template. -/
theorem resourceName_of_generateName_ne_empty (meta : ObjectMeta)
    (h : meta.generateName ≠ "") :
    resourceName meta = meta.generateName := by
  unfold resourceName
  rw [if_pos (length_pos_of_ne_empty _ h)]

/-- `resourceName` falls back to the literal name when the template is
empty. -/
theorem resourceName_of_generateName_empty (meta : ObjectMeta)
    (h : meta.generateName = "") :
    resourceName meta = meta.name := by
  unfold resourceName
  rw [h]
  simp

/-- `checkAccess` equals the pair of its own outcome and its single
recorded reviewer call. -/
theorem checkAccess_pair (env : Env) (strategy : BuildStrategy)
    (sar : SubjectAccessReview) (attr : Attributes) :
    checkAccess env strategy sar attr =
      ((checkAccess env strategy sar attr).1, [CallEvent.sarCall sar]) := by
  rw [← checkAccess_snd env strategy sar attr]

/-- Counterpart of `checkBuildAuthorization_eq` for Definitions. -/
theorem checkBuildConfigAuthorization_eq (env : Env)
    (buildConfig : BuildConfig) (attr : Attributes)
    (resource : GroupResource)
    (h : resourceForStrategyType buildConfig.spec.strategy =
      Except.ok resource) :
    checkBuildConfigAuthorization env buildConfig attr =
      checkAccess env buildConfig.spec.strategy
        (addUserToSAR attr.userInfo
          { spec := { resourceAttributes := some {
              nspace := attr.nspace
              verb := "create"
              group := resource.group
              resource := (goSplitN2 resource.resource slash).headD ""
              subresource :=
                if (goSplitN2 resource.resource slash).length = 2 then
                  (goSplitN2 resource.resource slash).getD 1 ""
                else ""
              name := resourceName buildConfig.objectMeta } } }) attr := by
  unfold checkBuildConfigAuthorization
  simp only [h]

/-- C5: whenever the strategy of an Instance or a Definition maps to a
resource, the permission query handed to the reviewer has verb create
(whatever the incoming operation), the namespace of the request
attributes, the mapped group, a resource and sub-resource obtained by
splitting the mapped resource string at its first slash, and a name equal
to the object's name-generation template when that template is non-empty,
else the object's literal name. -/
theorem C5_permission_query_shape :
    (∀ (env : Env) (build : Build) (attr : Attributes)
        (resource : GroupResource),
      resourceForStrategyType build.spec.strategy = Except.ok resource →
      ∃ (outcome : Option GoError) (sar : SubjectAccessReview)
        (ra : ResourceAttributes),
        checkBuildAuthorization env build attr =
          (outcome, [CallEvent.sarCall sar]) ∧
        sar.spec.user = attr.userInfo ∧
        sar.spec.resourceAttributes = some ra ∧
        ra.verb = "create" ∧
        ra.nspace = attr.nspace ∧
        ra.group = resource.group ∧
        slash ∉ ra.resource.data ∧
        (resource.resource = ra.resource ∧ ra.subresource = "" ∨
          resource.resource = ra.resource ++ "/" ++ ra.subresource) ∧
        (build.objectMeta.generateName ≠ "" →
          ra.name = build.objectMeta.generateName) ∧
        (build.objectMeta.generateName = "" →
          ra.name = build.objectMeta.name)) ∧
    (∀ (env : Env) (buildConfig : BuildConfig) (attr : Attributes)
        (resource : GroupResource),
      resourceForStrategyType buildConfig.spec.strategy =
        Except.ok resource →
      ∃ (outcome : Option GoError) (sar : SubjectAccessReview)
        (ra : ResourceAttributes),
        checkBuildConfigAuthorization env buildConfig attr =
          (outcome, [CallEvent.sarCall sar]) ∧
        sar.spec.user = attr.userInfo ∧
        sar.spec.resourceAttributes = some ra ∧
        ra.verb = "create" ∧
        ra.nspace = attr.nspace ∧
        ra.group = resource.group ∧
        slash ∉ ra.resource.data ∧
        (resource.resource = ra.resource ∧ ra.subresource = "" ∨
          resource.resource = ra.resource ++ "/" ++ ra.subresource) ∧
        (buildConfig.objectMeta.generateName ≠ "" →
          ra.name = buildConfig.objectMeta.generateName) ∧
        (buildConfig.objectMeta.generateName = "" →
          ra.name = buildConfig.objectMeta.name)) := by
  constructor
  · intro env build attr resource h
    have hr := resourceForStrategyType_ok_cases _ _ h
    rw [checkBuildAuthorization_eq env build attr resource h]
    refine ⟨_, _, _, checkAccess_pair env build.spec.strategy _ attr,
      rfl, rfl, rfl, rfl, rfl, ?_, ?_, ?_, ?_⟩
    · rcases hr with h1 | h1 | h1 | h1 | h1 <;> subst h1 <;> dsimp only <;>
        decide
    · rcases hr with h1 | h1 | h1 | h1 | h1 <;> subst h1 <;> dsimp only <;>
        decide
    · intro hg
      exact resourceName_of_generateName_ne_empty _ hg
    · intro hg
      exact resourceName_of_generateName_empty _ hg
  · intro env buildConfig attr resource h
    have hr := resourceForStrategyType_ok_cases _ _ h
    rw [checkBuildConfigAuthorization_eq env buildConfig attr resource h]
    refine ⟨_, _, _, checkAccess_pair env buildConfig.spec.strategy _ attr,
      rfl, rfl, rfl, rfl, rfl, ?_, ?_, ?_, ?_⟩
    · rcases hr with h1 | h1 | h1 | h1 | h1 <;> subst h1 <;> dsimp only <;>
        decide
    · rcases hr with h1 | h1 | h1 | h1 | h1 <;> subst h1 <;> dsimp only <;>
        decide
    · intro hg
      exact resourceName_of_generateName_ne_empty _ hg
    · intro hg
      exact resourceName_of_generateName_empty _ hg

/-- Witness for C5: the sample SourceLike Instance yields a reviewer query
of the stated shape. -/
theorem C5_witness :
    ∃ (outcome : Option GoError) (sar : SubjectAccessReview)
      (ra : ResourceAttributes),
      checkBuildAuthorization denyEnv sampleBuild sampleAttr =
        (outcome, [CallEvent.sarCall sar]) ∧
      sar.spec.user = sampleAttr.userInfo ∧
      sar.spec.resourceAttributes = some ra ∧
      ra.verb = "create" ∧
      ra.nspace = sampleAttr.nspace ∧
      ra.group = (buildapiResource SourceBuildResource).group ∧
      slash ∉ ra.resource.data ∧
      ((buildapiResource SourceBuildResource).resource = ra.resource ∧
          ra.subresource = "" ∨
        (buildapiResource SourceBuildResource).resource =
          ra.resource ++ "/" ++ ra.subresource) ∧
      (sampleBuild.objectMeta.generateName ≠ "" →
        ra.name = sampleBuild.objectMeta.generateName) ∧
      (sampleBuild.objectMeta.generateName = "" →
        ra.name = sampleBuild.objectMeta.name) :=
  C5_permission_query_shape.1 denyEnv sampleBuild sampleAttr
    (buildapiResource SourceBuildResource) rfl

/-- C6: for an Indirect Request, a failing lookup or a failing conversion
yields a denial wrapping the underlying error after exactly one lookup call
and no reviewer call; and a target resource that is neither builds nor
buildconfigs yields the structural error naming that resource, with no
collaborator call at all. -/
theorem C6_buildrequest_error_handling :
    (∀ (env : Env) (req : BuildRequest) (attr : Attributes) (err : String),
      (attr.resource = buildapiResource "builds" ∨
        attr.resource = legacyResource "builds") →
      env.getBuild attr.nspace req.objectMeta.name = Except.error err →
      checkBuildRequestAuthorization env req attr =
        (some (GoError.forbidden (GoError.collaborator err)),
          [CallEvent.buildGet attr.nspace req.objectMeta.name])) ∧
    (∀ (env : Env) (req : BuildRequest) (attr : Attributes)
        (wire : BuildV1) (err : String),
      (attr.resource = buildapiResource "builds" ∨
        attr.resource = legacyResource "builds") →
      env.getBuild attr.nspace req.objectMeta.name = Except.ok wire →
      env.convertBuild wire = Except.error err →
      checkBuildRequestAuthorization env req attr =
        (some (GoError.forbidden (GoError.collaborator err)),
          [CallEvent.buildGet attr.nspace req.objectMeta.name])) ∧
    (∀ (env : Env) (req : BuildRequest) (attr : Attributes) (err : String),
      (attr.resource = buildapiResource "buildconfigs" ∨
        attr.resource = legacyResource "buildconfigs") →
      env.getBuildConfig attr.nspace req.objectMeta.name =
        Except.error err →
      checkBuildRequestAuthorization env req attr =
        (some (GoError.forbidden (GoError.collaborator err)),
          [CallEvent.buildConfigGet attr.nspace req.objectMeta.name])) ∧
    (∀ (env : Env) (req : BuildRequest) (attr : Attributes)
        (wire : BuildConfigV1) (err : String),
      (attr.resource = buildapiResource "buildconfigs" ∨
        attr.resource = legacyResource "buildconfigs") →
      env.getBuildConfig attr.nspace req.objectMeta.name = Except.ok wire →
      env.convertBuildConfig wire = Except.error err →
      checkBuildRequestAuthorization env req attr =
        (some (GoError.forbidden (GoError.collaborator err)),
          [CallEvent.buildConfigGet attr.nspace req.objectMeta.name])) ∧
    (∀ (env : Env) (req : BuildRequest) (attr : Attributes),
      attr.resource ≠ buildapiResource "builds" →
      attr.resource ≠ legacyResource "builds" →
      attr.resource ≠ buildapiResource "buildconfigs" →
      attr.resource ≠ legacyResource "buildconfigs" →
      checkBuildRequestAuthorization env req attr =
        (some (GoError.forbidden
          (GoError.unknownResourceTypeForBuildRequest attr.resource)),
          [])) := by
  refine ⟨?_, ?_, ?_, ?_, ?_⟩
  · intro env req attr err hgr hget
    rcases hgr with h | h <;>
      simp [checkBuildRequestAuthorization, newForbidden, h, hget,
        buildapiResource, legacyResource]
  · intro env req attr wire err hgr hget hconv
    rcases hgr with h | h <;>
      simp [checkBuildRequestAuthorization, newForbidden, h, hget, hconv,
        buildapiResource, legacyResource]
  · intro env req attr err hgr hget
    rcases hgr with h | h <;>
      simp [checkBuildRequestAuthorization, newForbidden, h, hget,
        buildapiResource, legacyResource]
  · intro env req attr wire err hgr hget hconv
    rcases hgr with h | h <;>
      simp [checkBuildRequestAuthorization, newForbidden, h, hget, hconv,
        buildapiResource, legacyResource]
  · intro env req attr h1 h2 h3 h4
    simp [checkBuildRequestAuthorization, newForbidden, h1, h2, h3, h4]

/-- Witness for C6: a not-found lookup for a builds Indirect Request yields
a denial wrapping the not-found error, with one lookup call and no reviewer
call. -/
theorem C6_witness :
    checkBuildRequestAuthorization notFoundEnv { objectMeta := { name := "missing" } }
      { resource := buildapiResource "builds", nspace := "ns1" } =
      (some (GoError.forbidden
        (GoError.collaborator "builds missing not found")),
        [CallEvent.buildGet "ns1" "missing"]) :=
  C6_buildrequest_error_handling.1 notFoundEnv
    { objectMeta := { name := "missing" } }
    { resource := buildapiResource "builds", nspace := "ns1" }
    "builds missing not found" (Or.inl rfl) rfl

/-- C7: `strategyTypeString` names the populated variant in priority order
(Docker, Custom, Source, JenkinsPipeline, empty when none is populated),
and a denial for a CustomLike strategy carries a message containing
Custom. -/
theorem C7_denial_names_strategy_type :
    (∀ s : BuildStrategy, s.dockerStrategy.isSome →
      strategyTypeString s = "Docker") ∧
    (∀ s : BuildStrategy, s.dockerStrategy = none →
      s.customStrategy.isSome → strategyTypeString s = "Custom") ∧
    (∀ s : BuildStrategy, s.dockerStrategy = none →
      s.customStrategy = none → s.sourceStrategy.isSome →
      strategyTypeString s = "Source") ∧
    (∀ s : BuildStrategy, s.dockerStrategy = none →
      s.customStrategy = none → s.sourceStrategy = none →
      s.jenkinsPipelineStrategy.isSome →
      strategyTypeString s = "JenkinsPipeline") ∧
    (∀ s : BuildStrategy, s.dockerStrategy = none →
      s.customStrategy = none → s.sourceStrategy = none →
      s.jenkinsPipelineStrategy = none → strategyTypeString s = "") ∧
    (∀ (env : Env) (s : BuildStrategy) (sar : SubjectAccessReview)
        (attr : Attributes) (resp : SubjectAccessReviewResponse),
      env.sarCreate sar = Except.ok resp → resp.status.allowed = false →
      s.dockerStrategy = none → s.customStrategy.isSome →
      ∃ msg,
        (checkAccess env s sar attr).1 =
          some (GoError.forbidden (GoError.notAllowedMsg msg)) ∧
        ∃ pre post, msg = pre ++ "Custom" ++ post) := by
  refine ⟨?_, ?_, ?_, ?_, ?_, ?_⟩
  · intro s h1
    simp [strategyTypeString, h1]
  · intro s h1 h2
    simp [strategyTypeString, h1, h2]
  · intro s h1 h2 h3
    simp [strategyTypeString, h1, h2, h3]
  · intro s h1 h2 h3 h4
    simp [strategyTypeString, h1, h2, h3, h4]
  · intro s h1 h2 h3 h4
    simp [strategyTypeString, h1, h2, h3, h4]
  · intro env s sar attr resp hok hall hd hc
    refine ⟨"build strategy " ++ strategyTypeString s ++ " is not allowed",
      ?_, "build strategy ", " is not allowed", ?_⟩
    · simp [checkAccess, newForbidden, hok, hall]
    · have hcu : strategyTypeString s = "Custom" := by
        simp [strategyTypeString, hd, hc]
      rw [hcu]

/-- Witness for C7: a denied CustomLike strategy produces a message
containing Custom. -/
theorem C7_witness :
    ∃ msg,
      (checkAccess denyEnv { customStrategy := some {} } {}
        { resource := buildapiResource "builds" }).1 =
        some (GoError.forbidden (GoError.notAllowedMsg msg)) ∧
      ∃ pre post, msg = pre ++ "Custom" ++ post :=
  C7_denial_names_strategy_type.2.2.2.2.2 denyEnv
    { customStrategy := some {} } {} { resource := buildapiResource "builds" }
    { status := { allowed := false } } rfl rfl rfl rfl

/-- C8: `ValidateInitialization` reports an error exactly when the build
lookup client or the permission reviewer client is absent; with both
injected it reports none. -/
theorem C8_validateInitialization_iff (a : BuildByStrategy) :
    (ValidateInitialization a).isSome ↔
      (a.buildClient.isNone ∨ a.sarClient.isNone) := by
  unfold ValidateInitialization
  by_cases hb : a.buildClient.isNone <;>
    by_cases hs : a.sarClient.isNone <;> simp [hb, hs]

/-- The mapper's only error value is the unrecognized-strategy error. -/
theorem resourceForStrategyType_error_eq (s : BuildStrategy) (e : GoError)
    (h : resourceForStrategyType s = Except.error e) :
    e = GoError.unrecognizedStrategy s := by
  unfold resourceForStrategyType at h
  repeat' split at h
  all_goals simp_all

/-- `checkAccess` either allows or returns a forbidden result wrapping a
collaborator error or a not-allowed message. -/
theorem checkAccess_fst_cases (env : Env) (s : BuildStrategy)
    (sar : SubjectAccessReview) (attr : Attributes) :
    (checkAccess env s sar attr).1 = none ∨
    (∃ m, (checkAccess env s sar attr).1 =
      some (GoError.forbidden (GoError.collaborator m))) ∨
    (∃ m, (checkAccess env s sar attr).1 =
      some (GoError.forbidden (GoError.notAllowedMsg m))) := by
  unfold checkAccess
  cases hc : env.sarCreate sar with
  | error err =>
    right; left
    exact ⟨err, rfl⟩
  | ok resp =>
    by_cases ha : resp.status.allowed
    · left
      simp [ha]
    · right; right
      exact ⟨"build strategy " ++ strategyTypeString s ++ " is not allowed",
        by simp [ha, newForbidden]⟩

/-- No error escaping `checkAccess` mentions the unknown-resource error. -/
theorem checkAccess_no_unknown (env : Env) (s : BuildStrategy)
    (sar : SubjectAccessReview) (attr : Attributes) (e : GoError)
    (h : (checkAccess env s sar attr).1 = some e) :
    mentionsUnknownResourceTypeErr e = false := by
  rcases checkAccess_fst_cases env s sar attr with h0 | ⟨m, h0⟩ | ⟨m, h0⟩ <;>
    rw [h0] at h
  · cases h
  · injection h with h2
    subst h2
    rfl
  · injection h with h2
    subst h2
    rfl

/-- No error escaping `checkBuildAuthorization` mentions the
unknown-resource error. -/
theorem checkBuildAuthorization_no_unknown (env : Env) (b : Build)
    (attr : Attributes) (e : GoError)
    (h : (checkBuildAuthorization env b attr).1 = some e) :
    mentionsUnknownResourceTypeErr e = false := by
  rcases hres : resourceForStrategyType b.spec.strategy with err | resource
  · have he := resourceForStrategyType_error_eq _ _ hres
    unfold checkBuildAuthorization at h
    simp only [hres, newForbidden] at h
    injection h with h2
    subst he
    subst h2
    rfl
  · rw [checkBuildAuthorization_eq env b attr resource hres] at h
    exact checkAccess_no_unknown _ _ _ _ _ h

/-- No error escaping `checkBuildConfigAuthorization` mentions the
unknown-resource error. -/
theorem checkBuildConfigAuthorization_no_unknown (env : Env)
    (bc : BuildConfig) (attr : Attributes) (e : GoError)
    (h : (checkBuildConfigAuthorization env bc attr).1 = some e) :
    mentionsUnknownResourceTypeErr e = false := by
  rcases hres : resourceForStrategyType bc.spec.strategy with err | resource
  · have he := resourceForStrategyType_error_eq _ _ hres
    unfold checkBuildConfigAuthorization at h
    simp only [hres, newForbidden] at h
    injection h with h2
    subst he
    subst h2
    rfl
  · rw [checkBuildConfigAuthorization_eq env bc attr resource hres] at h
    exact checkAccess_no_unknown _ _ _ _ _ h

/-- When the group-resource is one of the builds or buildconfigs
resources, no error escaping `checkBuildRequestAuthorization` mentions the
unknown-resource error. -/
theorem checkBuildRequestAuthorization_no_unknown (env : Env)
    (req : BuildRequest) (attr : Attributes) (e : GoError)
    (hgr : attr.resource = buildapiResource "builds" ∨
      attr.resource = legacyResource "builds" ∨
      attr.resource = buildapiResource "buildconfigs" ∨
      attr.resource = legacyResource "buildconfigs")
    (h : (checkBuildRequestAuthorization env req attr).1 = some e) :
    mentionsUnknownResourceTypeErr e = false := by
  unfold checkBuildRequestAuthorization at h
  by_cases hb : attr.resource = buildapiResource "builds" ∨
      attr.resource = legacyResource "builds"
  · rw [if_pos hb] at h
    cases hg : env.getBuild attr.nspace req.objectMeta.name with
    | error err =>
      simp only [hg, newForbidden] at h
      injection h with h2
      subst h2
      rfl
    | ok wire =>
      cases hc : env.convertBuild wire with
      | error err =>
        simp only [hg, hc, newForbidden] at h
        injection h with h2
        subst h2
        rfl
      | ok internalBuild =>
        simp only [hg, hc] at h
        exact checkBuildAuthorization_no_unknown _ _ _ _ h
  · rw [if_neg hb] at h
    have hbc : attr.resource = buildapiResource "buildconfigs" ∨
        attr.resource = legacyResource "buildconfigs" := by
      rcases hgr with h1 | h1 | h1 | h1
      · exact absurd (Or.inl h1) hb
      · exact absurd (Or.inr h1) hb
      · exact Or.inl h1
      · exact Or.inr h1
    rw [if_pos hbc] at h
    cases hg : env.getBuildConfig attr.nspace req.objectMeta.name with
    | error err =>
      simp only [hg, newForbidden] at h
      injection h with h2
      subst h2
      rfl
    | ok wire =>
      cases hc : env.convertBuildConfig wire with
      | error err =>
        simp only [hg, hc, newForbidden] at h
        injection h with h2
        subst h2
        rfl
      | ok internalBuildConfig =>
        simp only [hg, hc] at h
        exact checkBuildConfigAuthorization_no_unknown _ _ _ _ h

/-- When the group-resource is one of the builds or buildconfigs
resources, no error escaping `admitObject` mentions the unknown-resource
error. -/
theorem admitObject_no_unknown (env : Env) (attr : Attributes)
    (e : GoError)
    (hgr : attr.resource = buildapiResource "builds" ∨
      attr.resource = legacyResource "builds" ∨
      attr.resource = buildapiResource "buildconfigs" ∨
      attr.resource = legacyResource "buildconfigs")
    (h : (admitObject env attr).1 = some e) :
    mentionsUnknownResourceTypeErr e = false := by
  unfold admitObject at h
  have hdispatch :
      (match attr.object with
        | RuntimeObject.build b => checkBuildAuthorization env b attr
        | RuntimeObject.buildConfig bc =>
          checkBuildConfigAuthorization env bc attr
        | RuntimeObject.buildRequest req =>
          checkBuildRequestAuthorization env req attr
        | RuntimeObject.other =>
          (some (newForbidden attr GoError.unrecognizedRequestObject),
            [])).1 = some e →
      mentionsUnknownResourceTypeErr e = false := by
    intro hd
    rcases hobj : attr.object with b | bc | req
    · rw [hobj] at hd
      exact checkBuildAuthorization_no_unknown _ _ _ _ hd
    · rw [hobj] at hd
      exact checkBuildConfigAuthorization_no_unknown _ _ _ _ hd
    · rw [hobj] at hd
      exact checkBuildRequestAuthorization_no_unknown _ _ _ _ hgr hd
    · rw [hobj] at hd
      simp only [newForbidden] at hd
      injection hd with h2
      subst h2
      rfl
  rcases hold : attr.oldObject with _ | old
  · rw [hold] at h
    simp only [Bool.false_eq_true, if_false] at h
    exact hdispatch h
  · rw [hold] at h
    by_cases hgc : env.isOnlyMutatingGCFields attr.object old
    · rw [if_pos hgc] at h
      cases h
    · rw [if_neg hgc] at h
      exact hdispatch h

/-- C9: the unknown-resource-type structural error branch of
`checkBuildRequestAuthorization` is unreachable through `Admit`: no error
that `Admit` returns is, or wraps, that error, for any request
attributes. -/
theorem C9_unknown_resource_branch_unreachable (env : Env)
    (attr : Attributes) (e : GoError)
    (h : (Admit env attr).1 = some e) :
    mentionsUnknownResourceTypeErr e = false := by
  unfold Admit at h
  by_cases h1 : attr.resource = buildapiResource "buildconfigs" ∨
      attr.resource = legacyResource "buildconfigs"
  · rw [if_pos h1] at h
    refine admitObject_no_unknown env attr e ?_ h
    rcases h1 with h1 | h1
    · exact Or.inr (Or.inr (Or.inl h1))
    · exact Or.inr (Or.inr (Or.inr h1))
  · rw [if_neg h1] at h
    by_cases h2 : attr.resource = buildapiResource "builds" ∨
        attr.resource = legacyResource "builds"
    · rw [if_pos h2] at h
      by_cases h3 : attr.subresource = "details"
      · rw [if_pos h3] at h
        cases h
      · rw [if_neg h3] at h
        refine admitObject_no_unknown env attr e ?_ h
        rcases h2 with h2 | h2
        · exact Or.inl h2
        · exact Or.inr (Or.inl h2)
    · rw [if_neg h2] at h
      cases h

/-- Witness for C9: a concrete rejected request (unrecognized object on the
buildconfigs resource) produces an error that does not mention the
unknown-resource-type error. -/
theorem C9_witness :
    mentionsUnknownResourceTypeErr
      (GoError.forbidden GoError.unrecognizedRequestObject) = false :=
  C9_unknown_resource_branch_unreachable denyEnv
    { resource := buildapiResource "buildconfigs"
      object := RuntimeObject.other }
    (GoError.forbidden GoError.unrecognizedRequestObject) rfl

/-- C10: with more than one variant populated, the mapper still returns a
resource (no error), resolved by the fixed priority Docker, Custom, Source,
JenkinsPipeline, and `strategyTypeString` names the variant selected by the
same priority, so resource and denial message agree. -/
theorem C10_priority_agreement (s : BuildStrategy)
    (h : 2 ≤ populatedCount s) :
    (∃ r, resourceForStrategyType s = Except.ok r) ∧
    (s.dockerStrategy.isSome →
      (resourceForStrategyType s =
          Except.ok (buildapiResource DockerBuildResource) ∨
        resourceForStrategyType s =
          Except.ok (buildapiResource OptimizedDockerBuildResource)) ∧
      strategyTypeString s = "Docker") ∧
    (s.dockerStrategy = none → s.customStrategy.isSome →
      resourceForStrategyType s =
        Except.ok (buildapiResource CustomBuildResource) ∧
      strategyTypeString s = "Custom") ∧
    (s.dockerStrategy = none → s.customStrategy = none →
      s.sourceStrategy.isSome →
      resourceForStrategyType s =
        Except.ok (buildapiResource SourceBuildResource) ∧
      strategyTypeString s = "Source") ∧
    (s.dockerStrategy = none → s.customStrategy = none →
      s.sourceStrategy = none → s.jenkinsPipelineStrategy.isSome →
      resourceForStrategyType s =
        Except.ok (buildapiResource JenkinsPipelineBuildResource) ∧
      strategyTypeString s = "JenkinsPipeline") := by
  refine ⟨?_, ?_, ?_, ?_, ?_⟩
  · rcases hd : s.dockerStrategy with _ | ds
    · rcases hc : s.customStrategy with _ | cs
      · rcases hs : s.sourceStrategy with _ | ss
        · rcases hj : s.jenkinsPipelineStrategy with _ | js
          · exfalso
            simp [populatedCount, hd, hc, hs, hj] at h
          · exact ⟨buildapiResource JenkinsPipelineBuildResource,
              by simp [resourceForStrategyType, hd, hc, hs, hj]⟩
        · exact ⟨buildapiResource SourceBuildResource,
            by simp [resourceForStrategyType, hd, hc, hs]⟩
      · exact ⟨buildapiResource CustomBuildResource,
          by simp [resourceForStrategyType, hd, hc]⟩
    · rcases hp : ds.imageOptimizationPolicy with _ | p
      · exact ⟨buildapiResource DockerBuildResource,
          by simp [resourceForStrategyType, hd, hp]⟩
      · by_cases hn : p = ImageOptimizationNone
        · exact ⟨buildapiResource DockerBuildResource,
            by simp [resourceForStrategyType, hd, hp, hn]⟩
        · exact ⟨buildapiResource OptimizedDockerBuildResource,
            by simp [resourceForStrategyType, hd, hp, hn]⟩
  · intro hd
    rcases hds : s.dockerStrategy with _ | ds
    · rw [hds] at hd
      cases hd
    · constructor
      · rcases hp : ds.imageOptimizationPolicy with _ | p
        · left
          simp [resourceForStrategyType, hds, hp]
        · by_cases hn : p = ImageOptimizationNone
          · left
            simp [resourceForStrategyType, hds, hp, hn]
          · right
            simp [resourceForStrategyType, hds, hp, hn]
      · simp [strategyTypeString, hds]
  · intro hd hc
    exact ⟨by simp [resourceForStrategyType, hd, hc],
      by simp [strategyTypeString, hd, hc]⟩
  · intro hd hc hs
    exact ⟨by simp [resourceForStrategyType, hd, hc, hs],
      by simp [strategyTypeString, hd, hc, hs]⟩
  · intro hd hc hs hj
    exact ⟨by simp [resourceForStrategyType, hd, hc, hs, hj],
      by simp [strategyTypeString, hd, hc, hs, hj]⟩

/-- Witness for C10: with both a Docker and a Custom variant populated, the
mapper picks the Docker resource and the message also names Docker. -/
theorem C10_witness :
    (∃ r, resourceForStrategyType
      { dockerStrategy := some {}, customStrategy := some {} } =
        Except.ok r) ∧
    strategyTypeString
      { dockerStrategy := some {}, customStrategy := some {} } = "Docker" :=
  ⟨(C10_priority_agreement
      { dockerStrategy := some {}, customStrategy := some {} }
      (by decide)).1,
    ((C10_priority_agreement
      { dockerStrategy := some {}, customStrategy := some {} }
      (by decide)).2.1 rfl).2⟩

end StrategyRestrictions
